import Mathlib

/-!
Verification of `src/grimey_doom_teller.py` (Grimey's Doom Teller kiosk).

The script is a single-file Streamlit app: a form feeds `generate_text`
(one OpenAI chat-completions request built from a mode-selected system
prompt and a templated user message) and then `elevenlabs_tts` (one
speech-synthesis request on the generated text), with results stored in
the session state keys `text` and `audio`.

The embedding below translates the pure request construction directly
from the source, and models each outbound HTTP call as an oracle function
supplied to the orchestrator (`Except` result: `ok` payload on 2xx,
`error` for `raise_for_status` / network failure).  The module-level
submit block becomes `submit`, which also records the list of network
calls issued, so that "zero network calls" and "synthesize is never
invoked" become statements about that trace.
-/

namespace Grimey

/-- The three system prompts, transcribed verbatim from the source
(Python triple-quoted strings start and end with a newline). -/
def NOCTURNE_PROMPT : String :=
  "\n" ++
  "You are an old, watchful intelligence that speaks like the hour before midnight.\n" ++
  "Your voice is eerie, exact, and restrained—closer to a whisper than a sermon.\n" ++
  "Think Mark Rothko’s darkness and Poe’s composure, with mild baroque ornament. No theatrics. No headers.\n" ++
  "\n" ++
  "Rules of address:\n" ++
  "- Begin by saying the user's Name as the very first word, followed by a period. Speak directly to them.\n" ++
  "- Use every piece of provided info explicitly: Name, Occupation, and the Detail (quote or paraphrase a key phrase);\n" ++
  "  if a Birthday is provided, weave a subtle seasonal omen or atmosphere from that month.\n" ++
  "- Two short paragraphs max (total 90–140 words). Sentences predominantly concise. No list formatting.\n" ++
  "\n" ++
  "Content guidance:\n" ++
  "- Read what they carry (tension, flaw, hunger, pattern) with a chilling, matter-of-fact clarity.\n" ++
  "- Name one precise behavioral trap or “haunting” they repeat.\n" ++
  "- Offer one stark directive or warning at the end as a single sentence, clean and memorable.\n" ++
  "\n" ++
  "Diction palette (use sparingly): penumbra, revenant, inexorable, obsidian, threshold, omen, undertow, fissure, fugue.\n" ++
  "Maintain PG-13 boundaries: no graphic content, no instructions for harm.\n" ++
  "\n" ++
  "Now generate the reflection using the inputs.\n"

/-- Kid-Friendly (Goosebumps-style) system prompt, verbatim. -/
def KID_PROMPT : String :=
  "\n" ++
  "You are a campfire storyteller AI for kids (around age 10): spooky, playful, and kind.\n" ++
  "Tone: Goosebumps / Scary Stories to Tell in the Dark — eerie but safe, vivid but simple.\n" ++
  "No gore. No violence or harm instructions. Keep it PG.\n" ++
  "\n" ++
  "Rules of address:\n" ++
  "- Start by saying the child's Name as the first word, followed by a period. Speak directly to them.\n" ++
  "- Use every piece of provided info explicitly: Name, Occupation (as they describe themselves), and the Detail\n" ++
  "  (echo a fun phrase in quotes once). If a Birthday/month is provided, add a tiny seasonal omen (moonlight, leaves, fog).\n" ++
  "- Two short paragraphs total, ~70–110 words. Short, concrete sentences. Fun imagery: creaky floorboards, moonlight,\n" ++
  "  fog, whispering lockers, friendly ghosts, library shadows, Halloween pumpkins. No blood, no weapons.\n" ++
  "\n" ++
  "Content guidance:\n" ++
  "- Make 1–2 playful “scary but safe” observations about their habits or quirks using their Detail.\n" ++
  "- Hint at a funny “haunting” they can outsmart (e.g., the Homework Goblin, the Snack Phantom).\n" ++
  "- End with two short sentences: one friendly directive for tonight, then a cheeky spooky punchline.\n" ++
  "\n" ++
  "Now generate the reflection using the inputs.\n"

/-- Teen (12+) system prompt, verbatim. -/
def TEEN_PROMPT : String :=
  "\n" ++
  "You are a midnight narrator for teens (around 12+). Eerie, direct, and cinematic.\n" ++
  "No headers. No lists. Speak to them like someone who knows their secrets and isn’t shocked.\n" ++
  "\n" ++
  "Rules of address:\n" ++
  "- Begin with the teen’s Name as the first word, followed by a period. Speak to them in second person.\n" ++
  "- Use every piece of info explicitly: Name, Occupation (as they describe it), and Detail\n" ++
  "  (quote a striking phrase once). If a Birthday/month is provided, fold in a small seasonal omen\n" ++
  "  (cold metal bleachers in October, late-summer static, winter window-frost).\n" ++
  "- Keep it tight: two short paragraphs, 80–120 words total. Sentences mostly short. No fluff.\n" ++
  "\n" ++
  "Content guidance (PG-13 safe):\n" ++
  "- Name the pattern they’re trapped in, and the thing that keeps pulling them back.\n" ++
  "- Let one unsettling image linger (hallway light that never turns off, the locker that thuds once, a shadow that pauses).\n" ++
  "- Close with two crisp sentences: one caution or directive for tonight, then one chilling tag they’ll remember.\n" ++
  "\n" ++
  "Avoid gore, injuries, methods, or instructions for harm. Aim for dread, atmosphere, and precision.\n" ++
  "Now generate the reflection using the inputs.\n"

/-- `USER_MSG.format(...)`: the user-message template with the four
fields substituted (Python `str.format` on the `USER_MSG` constant). -/
def USER_MSG (name occupation detail birthday : String) : String :=
  "Return ONE short reading in the specified style.\n\n" ++
  "Name: " ++ name ++ "\n" ++
  "Occupation: " ++ occupation ++ "\n" ++
  "Detail: " ++ detail ++ "\n" ++
  "Birthday: " ++ birthday ++ "\n"

/-- Python `s or "not provided"` on a string: the empty string is falsy. -/
def orNotProvided (s : String) : String :=
  if s = "" then "not provided" else s

/-- Python `str.strip()` with no argument: removes leading and trailing
whitespace. -/
def pyStrip (s : String) : String :=
  ⟨((s.data.dropWhile Char.isWhitespace).reverse.dropWhile Char.isWhitespace).reverse⟩

/-- Python `s.startswith(p)`. -/
def pyStartswith (s p : String) : Bool :=
  p.data.isPrefixOf s.data

/-- One chat message of the OpenAI request body. -/
structure ChatMessage where
  role : String
  content : String
  deriving Repr, DecidableEq

/-- The JSON body sent to the chat-completions endpoint.  The sampling
temperature is a decimal with two digits (0.8, 0.9, 0.85); it is kept in
hundredths to stay in exact arithmetic. -/
structure Payload where
  model : String
  messages : List ChatMessage
  temperatureCenti : Nat
  maxTokens : Nat
  deriving Repr, DecidableEq

/-- The per-mode configuration chosen by the `if/elif/else` at the top of
`generate_text`. -/
structure ModeConfig where
  systemPrompt : String
  temperatureCenti : Nat
  maxTokens : Nat
  deriving Repr, DecidableEq

/-- The mode dispatch inside `generate_text`: `"Grown-Up"` and
`"Kid-Friendly"` are matched exactly; every other string falls into the
final `else` branch (commented `# Teen (12+)` in the source). -/
def promptFor (mode : String) : ModeConfig :=
  if mode = "Grown-Up" then
    { systemPrompt := NOCTURNE_PROMPT, temperatureCenti := 80, maxTokens := 450 }
  else if mode = "Kid-Friendly" then
    { systemPrompt := KID_PROMPT, temperatureCenti := 90, maxTokens := 380 }
  else
    { systemPrompt := TEEN_PROMPT, temperatureCenti := 85, maxTokens := 420 }

/-- The form fields captured on a submission. -/
structure UserInput where
  name : String
  occupation : String
  detail : String
  birthday : String
  deriving Repr, DecidableEq

/-- The request body that `generate_text` constructs before issuing its
HTTP POST: system message from the mode dispatch, user message from
`USER_MSG.format` with each field defaulted by `or "not provided"`. -/
def genPayload (inp : UserInput) (model mode : String) : Payload :=
  let cfg := promptFor mode
  { model := model
    messages :=
      [ { role := "system", content := cfg.systemPrompt }
      , { role := "user"
          content := USER_MSG (orNotProvided inp.name) (orNotProvided inp.occupation)
            (orNotProvided inp.detail) (orNotProvided inp.birthday) } ]
    temperatureCenti := cfg.temperatureCenti
    maxTokens := cfg.maxTokens }

/-- Upstream HTTP failure (`requests` exception / `raise_for_status`):
status code and body, propagated verbatim. -/
structure UpstreamError where
  status : Nat
  body : String
  deriving Repr, DecidableEq

/-- The request `elevenlabs_tts` constructs: URL parameterized by the
voice id, `xi-api-key` header, fixed model id and voice settings
(stability 0.5, similarity_boost 0.75, kept in hundredths). -/
structure TtsRequest where
  voiceId : String
  apiKey : String
  text : String
  modelId : String
  stabilityCenti : Nat
  similarityBoostCenti : Nat
  deriving Repr, DecidableEq

/-- Builds the `elevenlabs_tts` request for a given text and credentials. -/
def ttsRequestOf (voiceId apiKey text : String) : TtsRequest :=
  { voiceId := voiceId, apiKey := apiKey, text := text
    modelId := "eleven_multilingual_v2"
    stabilityCenti := 50, similarityBoostCenti := 75 }

/-- The configuration surface read at process start (missing values
are the empty string, which is falsy in the Python checks). -/
structure Config where
  openaiApiKey : String
  elevenApiKey : String
  elevenVoiceId : String
  openaiModel : String
  deriving Repr, DecidableEq

/-- The Streamlit session state: keys `text` (default `""`) and `audio`
(default `None`); audio bytes are modelled as a list of byte values. -/
structure SessionState where
  text : String
  audio : Option (List Nat)
  deriving Repr, DecidableEq

/-- The defaults installed by the two `if "…" not in st.session_state`
blocks. -/
def initialState : SessionState :=
  { text := "", audio := none }

/-- The reset button handler deletes every session-state key and reruns;
on the rerun the defaults are re-installed, so the session state after a
reset is exactly `initialState`. -/
def reset (_s : SessionState) : SessionState :=
  initialState

/-- A network call issued during a submission, in order. -/
inductive Call where
  | generate (p : Payload)
  | synthesize (r : TtsRequest)
  deriving Repr, DecidableEq

/-- What the submit block surfaces to the user at the end. -/
inductive Outcome where
  | credentialError (msg : String)
  | genFailed (e : UpstreamError)
  | ttsFailed (e : UpstreamError)
  | complete
  deriving Repr, DecidableEq

/-- Result of one submission: the session state afterwards, the network
calls issued (in order), and the surfaced outcome. -/
structure SubmitResult where
  state : SessionState
  calls : List Call
  outcome : Outcome
  deriving Repr, DecidableEq

/-- The label normalization in the submit block:
`mode_key = "Grown-Up" if mode.startswith("Grown-Up") else ("Kid-Friendly" if mode.startswith("Kid") else "Teen")`. -/
def normalizeMode (mode : String) : String :=
  if pyStartswith mode "Grown-Up" then "Grown-Up"
  else if pyStartswith mode "Kid" then "Kid-Friendly"
  else "Teen"

/-- The module-level submit block (`if submitted:`), with the two
outbound HTTP calls abstracted as oracles.  `gen` answers the
chat-completions POST with `choices[0].message.content` on 2xx (the
code then applies `.strip()`, modelled by `pyStrip`); `tts` answers
the speech-synthesis POST with the raw audio bytes.  An `error` answer
models the exception caught by the `except` clause, which leaves any
not-yet-executed assignment unperformed. -/
def submit (cfg : Config) (inp : UserInput) (mode : String) (s : SessionState)
    (gen : Payload → Except UpstreamError String)
    (tts : TtsRequest → Except UpstreamError (List Nat)) : SubmitResult :=
  if cfg.openaiApiKey = "" then
    { state := s, calls := [], outcome := .credentialError "Missing OpenAI API Key" }
  else if cfg.elevenApiKey = "" ∨ cfg.elevenVoiceId = "" then
    { state := s, calls := [], outcome := .credentialError "Missing ElevenLabs API Key or Voice ID" }
  else
    let p := genPayload inp cfg.openaiModel (normalizeMode mode)
    match gen p with
    | .error e => { state := s, calls := [.generate p], outcome := .genFailed e }
    | .ok content =>
      let text := pyStrip content
      let s1 : SessionState := { s with text := text }
      let req := ttsRequestOf cfg.elevenVoiceId cfg.elevenApiKey text
      match tts req with
      | .error e =>
        { state := s1, calls := [.generate p, .synthesize req], outcome := .ttsFailed e }
      | .ok audio =>
        { state := { s1 with audio := some audio }
          calls := [.generate p, .synthesize req]
          outcome := .complete }

/-- Session states reachable from the initial defaults by any sequence
of submissions (with arbitrary inputs, mode labels, and service
behaviours) and resets, for a fixed process-start configuration. -/
inductive Reachable (cfg : Config) : SessionState → Prop where
  | init : Reachable cfg initialState
  | submitStep {s : SessionState} (inp : UserInput) (mode : String)
      (gen : Payload → Except UpstreamError String)
      (tts : TtsRequest → Except UpstreamError (List Nat)) :
      Reachable cfg s → Reachable cfg (submit cfg inp mode s gen tts).state
  | resetStep {s : SessionState} : Reachable cfg s → Reachable cfg (reset s)

/-! Concrete fixtures used by witnesses and counterexamples. -/

/-- A configuration with every credential present. -/
def testCfg : Config :=
  { openaiApiKey := "sk-test", elevenApiKey := "el-test"
    elevenVoiceId := "voice-1", openaiModel := "gpt-4o-mini" }

/-- A configuration whose voice-service key is missing. -/
def noElevenKeyCfg : Config :=
  { openaiApiKey := "sk-test", elevenApiKey := ""
    elevenVoiceId := "voice-1", openaiModel := "gpt-4o-mini" }

/-- The form submission from the spec's scenario. -/
def alexInput : UserInput :=
  { name := "Alex", occupation := "teacher"
    detail := "checks locks twice", birthday := "March" }

/-- Oracle behaviour: the text service answers 200 with fixed content. -/
def genOk (t : String) : Payload → Except UpstreamError String :=
  fun _ => Except.ok t

/-- Oracle behaviour: the text service fails (non-2xx / network error). -/
def genFail : Payload → Except UpstreamError String :=
  fun _ => Except.error { status := 500, body := "boom" }

/-- Oracle behaviour: the speech service answers with fixed audio bytes. -/
def ttsOk (bs : List Nat) : TtsRequest → Except UpstreamError (List Nat) :=
  fun _ => Except.ok bs

/-- Oracle behaviour: the speech service fails. -/
def ttsFail : TtsRequest → Except UpstreamError (List Nat) :=
  fun _ => Except.error { status := 502, body := "voice down" }

/-! Helper lemmas. -/

/-- String concatenation is associative. -/
theorem string_append_assoc (a b c : String) : a ++ b ++ c = a ++ (b ++ c) := by
  cases a with
  | mk la =>
    cases b with
    | mk lb =>
      cases c with
      | mk lc => exact congrArg String.mk (List.append_assoc la lb lc)

/-- The formatted user message splits into the fixed instruction line (with
its blank line) followed by the block of four labelled fields. -/
theorem USER_MSG_decomp (a b c d : String) :
    USER_MSG a b c d = "Return ONE short reading in the specified style.\n\n" ++
      ("Name: " ++ a ++ "\n" ++ "Occupation: " ++ b ++ "\n" ++
       "Detail: " ++ c ++ "\n" ++ "Birthday: " ++ d ++ "\n") := by
  simp only [USER_MSG, string_append_assoc]

/-! Claim theorems. -/

/-- Claim C3: on a submission where the text-service key is missing, or the
voice-service key or voice identifier is missing, the flow surfaces a
credential error and issues zero network calls: neither the generate nor the
synthesize request is ever sent. -/
theorem missing_credentials_block_all_calls (cfg : Config) (inp : UserInput)
    (mode : String) (s : SessionState)
    (gen : Payload → Except UpstreamError String)
    (tts : TtsRequest → Except UpstreamError (List Nat))
    (h : cfg.openaiApiKey = "" ∨ cfg.elevenApiKey = "" ∨ cfg.elevenVoiceId = "") :
    (submit cfg inp mode s gen tts).calls = [] ∧
    ∃ msg, (submit cfg inp mode s gen tts).outcome = Outcome.credentialError msg := by
  by_cases h1 : cfg.openaiApiKey = ""
  · unfold submit
    rw [if_pos h1]
    exact ⟨rfl, "Missing OpenAI API Key", rfl⟩
  · have h2 : cfg.elevenApiKey = "" ∨ cfg.elevenVoiceId = "" := by
      rcases h with h | h | h
      · exact absurd h h1
      · exact Or.inl h
      · exact Or.inr h
    unfold submit
    rw [if_neg h1, if_pos h2]
    exact ⟨rfl, "Missing ElevenLabs API Key or Voice ID", rfl⟩

/-- Witness for C3: with the voice-service key missing, a concrete
submission issues no calls and reports a credential error. -/
theorem missing_credentials_block_all_calls_witness :
    (submit noElevenKeyCfg alexInput "Teen (12+)" initialState
        (genOk "x") (ttsOk [1])).calls = [] ∧
    ∃ msg, (submit noElevenKeyCfg alexInput "Teen (12+)" initialState
        (genOk "x") (ttsOk [1])).outcome = Outcome.credentialError msg :=
  missing_credentials_block_all_calls _ _ _ _ _ _ (Or.inr (Or.inl rfl))

/-- Claim C4: on a submission where the text-generation call fails, the
speech-synthesis request is never issued: no synthesize call appears in the
submission's network trace. -/
theorem no_synthesis_after_gen_failure (cfg : Config) (inp : UserInput)
    (mode : String) (s : SessionState)
    (gen : Payload → Except UpstreamError String)
    (tts : TtsRequest → Except UpstreamError (List Nat)) (e : UpstreamError)
    (h : gen (genPayload inp cfg.openaiModel (normalizeMode mode)) = Except.error e) :
    ∀ r : TtsRequest, Call.synthesize r ∉ (submit cfg inp mode s gen tts).calls := by
  intro r
  by_cases h1 : cfg.openaiApiKey = ""
  · unfold submit
    rw [if_pos h1]
    simp
  · by_cases h2 : cfg.elevenApiKey = "" ∨ cfg.elevenVoiceId = ""
    · unfold submit
      rw [if_neg h1, if_pos h2]
      simp
    · unfold submit
      rw [if_neg h1, if_neg h2]
      simp [h]

/-- Witness for C4: a concrete failing generation leaves the synthesize
request out of the trace. -/
theorem no_synthesis_after_gen_failure_witness :
    Call.synthesize (ttsRequestOf "voice-1" "el-test" "x") ∉
      (submit testCfg alexInput "Teen (12+)" initialState genFail (ttsOk [1])).calls :=
  no_synthesis_after_gen_failure testCfg alexInput "Teen (12+)" initialState genFail
    (ttsOk [1]) { status := 500, body := "boom" } rfl
    (ttsRequestOf "voice-1" "el-test" "x")

/-- Claim C9: when the text-generation call raises, the submission leaves
the session state entirely unchanged: both last_text and last_audio keep
their prior values. -/
theorem gen_failure_preserves_state (cfg : Config) (inp : UserInput)
    (mode : String) (s : SessionState)
    (gen : Payload → Except UpstreamError String)
    (tts : TtsRequest → Except UpstreamError (List Nat)) (e : UpstreamError)
    (h : gen (genPayload inp cfg.openaiModel (normalizeMode mode)) = Except.error e) :
    (submit cfg inp mode s gen tts).state = s := by
  by_cases h1 : cfg.openaiApiKey = ""
  · unfold submit
    rw [if_pos h1]
  · by_cases h2 : cfg.elevenApiKey = "" ∨ cfg.elevenVoiceId = ""
    · unfold submit
      rw [if_neg h1, if_pos h2]
    · unfold submit
      rw [if_neg h1, if_neg h2]
      simp [h]

/-- Witness for C9: a concrete failing generation keeps a previously
populated session state intact. -/
theorem gen_failure_preserves_state_witness :
    (submit testCfg alexInput "Grown-Up" { text := "t", audio := some [7] }
        genFail (ttsOk [1])).state = { text := "t", audio := some [7] } :=
  gen_failure_preserves_state testCfg alexInput "Grown-Up"
    { text := "t", audio := some [7] } genFail (ttsOk [1])
    { status := 500, body := "boom" } rfl

/-- Claim C5: in the request body built by `generate_text`, every empty
field of the form input is replaced by the literal "not provided", and every
non-empty field is embedded verbatim in the user message. -/
theorem empty_fields_default_to_not_provided (inp : UserInput) (model mode : String) :
    (genPayload inp model mode).messages.getLast? = some
      { role := "user"
        content := USER_MSG
          (if inp.name = "" then "not provided" else inp.name)
          (if inp.occupation = "" then "not provided" else inp.occupation)
          (if inp.detail = "" then "not provided" else inp.detail)
          (if inp.birthday = "" then "not provided" else inp.birthday) } :=
  rfl

/-- Claim C6: the three system-prompt templates are non-empty and pairwise
distinct, the prompt dispatch returns each of them for its mode identifier,
and the request carries exactly the looked-up template as its system
message. -/
theorem prompts_distinct_and_sent_verbatim :
    NOCTURNE_PROMPT ≠ "" ∧ KID_PROMPT ≠ "" ∧ TEEN_PROMPT ≠ "" ∧
    NOCTURNE_PROMPT ≠ KID_PROMPT ∧ NOCTURNE_PROMPT ≠ TEEN_PROMPT ∧
    KID_PROMPT ≠ TEEN_PROMPT ∧
    (promptFor "Grown-Up").systemPrompt = NOCTURNE_PROMPT ∧
    (promptFor "Kid-Friendly").systemPrompt = KID_PROMPT ∧
    (promptFor "Teen").systemPrompt = TEEN_PROMPT ∧
    ∀ (inp : UserInput) (model mode : String),
      (genPayload inp model mode).messages.head? =
        some { role := "system", content := (promptFor mode).systemPrompt } := by
  refine ⟨by decide, by decide, by decide, by decide, by decide, by decide,
    rfl, rfl, rfl, fun inp model mode => rfl⟩

/-- Claim C7: for the Alex/teacher Teen-mode scenario, the request's system
message is the Teen template, its user message is the fixed instruction
followed exactly by the four labelled field lines, and a 200 response whose
first choice content is "Alex. ..." yields last_text = "Alex. ...". -/
theorem alex_teen_scenario :
    (genPayload alexInput "gpt-4o-mini" (normalizeMode "Teen (12+)")).messages =
      [ { role := "system", content := TEEN_PROMPT }
      , { role := "user"
          content := "Return ONE short reading in the specified style.\n\n" ++
            "Name: Alex\nOccupation: teacher\nDetail: checks locks twice\nBirthday: March\n" } ] ∧
    (submit testCfg alexInput "Teen (12+)" initialState
        (genOk "Alex. ...") (ttsOk [1])).state.text = "Alex. ..." := by
  exact ⟨rfl, rfl⟩

/-- Claim C8: the reset action, from any session state, yields the default
session state (last_text empty, last_audio absent), the state of the Idle
form. -/
theorem reset_clears_session (s : SessionState) :
    reset s = initialState ∧ initialState = { text := "", audio := none } :=
  ⟨rfl, rfl⟩

/-- Claim C10: for every input, model and mode, the user message sent to the
text-completion endpoint begins with the fixed instruction line and a blank
line, followed by the four labelled fields; the prefix is a constant,
independent of mode, model and input. -/
theorem user_message_instruction_prefix (inp : UserInput) (model mode : String) :
    ∃ rest,
      (genPayload inp model mode).messages.getLast? = some
        { role := "user"
          content := "Return ONE short reading in the specified style.\n\n" ++ rest } ∧
      rest = "Name: " ++ orNotProvided inp.name ++ "\n" ++
        "Occupation: " ++ orNotProvided inp.occupation ++ "\n" ++
        "Detail: " ++ orNotProvided inp.detail ++ "\n" ++
        "Birthday: " ++ orNotProvided inp.birthday ++ "\n" := by
  refine ⟨_, ?_, rfl⟩
  have h : (genPayload inp model mode).messages.getLast? = some
      { role := "user"
        content := USER_MSG (orNotProvided inp.name) (orNotProvided inp.occupation)
          (orNotProvided inp.detail) (orNotProvided inp.birthday) } := rfl
  rw [h, USER_MSG_decomp]

/-- Counterexample to claim C1: starting from the initial session state, one
fully successful submission stores text "old" with audio bytes [7]; a second
submission then generates "new" but its synthesis fails.  The resulting
reachable state keeps the stale audio (some [7]) alongside the new text, so
last_audio is neither absent nor derived from the current last_text. -/
theorem stale_audio_counterexample :
    ¬ (∀ (cfg : Config) (inp : UserInput) (mode : String) (s : SessionState)
        (gen : Payload → Except UpstreamError String)
        (tts : TtsRequest → Except UpstreamError (List Nat)) (e : UpstreamError),
        Reachable cfg s →
        (submit cfg inp mode s gen tts).outcome = Outcome.ttsFailed e →
        (submit cfg inp mode s gen tts).state.audio = none) := by
  intro h
  have hreach : Reachable testCfg { text := "old", audio := some [7] } :=
    Reachable.submitStep alexInput "Teen (12+)" (genOk "old") (ttsOk [7]) Reachable.init
  have hc := h testCfg alexInput "Teen (12+)" { text := "old", audio := some [7] }
    (genOk "new") ttsFail { status := 502, body := "voice down" } hreach rfl
  exact Option.noConfusion hc

/-- Claim C1 (amended): on a submission where text generation succeeds but
voice synthesis fails, last_text holds the newly generated (stripped) text,
while last_audio retains exactly the value it had before the submission: it
stays absent when it was absent, but a stale clip from an earlier submission
is kept and may be out of sync with the new text. -/
theorem failed_synthesis_keeps_new_text_and_old_audio
    (cfg : Config) (inp : UserInput) (mode : String) (s : SessionState)
    (gen : Payload → Except UpstreamError String)
    (tts : TtsRequest → Except UpstreamError (List Nat))
    (content : String) (e : UpstreamError)
    (hg : gen (genPayload inp cfg.openaiModel (normalizeMode mode)) = Except.ok content)
    (ht : tts (ttsRequestOf cfg.elevenVoiceId cfg.elevenApiKey (pyStrip content))
      = Except.error e)
    (h1 : cfg.openaiApiKey ≠ "") (h2 : cfg.elevenApiKey ≠ "")
    (h3 : cfg.elevenVoiceId ≠ "") :
    (submit cfg inp mode s gen tts).state.text = pyStrip content ∧
    (submit cfg inp mode s gen tts).state.audio = s.audio := by
  have h23 : ¬ (cfg.elevenApiKey = "" ∨ cfg.elevenVoiceId = "") := by
    rintro (hk | hv)
    · exact h2 hk
    · exact h3 hv
  unfold submit
  rw [if_neg h1, if_neg h23]
  simp [hg, ht]

/-- Witness for the amended C1: a concrete partial failure keeps the new
text and the stale audio bytes from the previous submission. -/
theorem failed_synthesis_keeps_new_text_and_old_audio_witness :
    (submit testCfg alexInput "Teen (12+)" { text := "old", audio := some [7] }
        (genOk "new") ttsFail).state.text = pyStrip "new" ∧
    (submit testCfg alexInput "Teen (12+)" { text := "old", audio := some [7] }
        (genOk "new") ttsFail).state.audio = some [7] :=
  failed_synthesis_keeps_new_text_and_old_audio testCfg alexInput "Teen (12+)"
    { text := "old", audio := some [7] } (genOk "new") ttsFail "new"
    { status := 502, body := "voice down" } rfl rfl
    (by decide) (by decide) (by decide)

/-- Counterexample to claim C2: for the unknown mode identifier "Bogus"
(none of the three known modes) the lookup does not fail; it proceeds with
the Teen template as a silent default, so the unknown mode's system prompt
coincides with a known template. -/
theorem unknown_mode_counterexample :
    ¬ (∀ mode : String,
        mode ≠ "Grown-Up" → mode ≠ "Kid-Friendly" → mode ≠ "Teen" →
        (promptFor mode).systemPrompt ≠ NOCTURNE_PROMPT ∧
        (promptFor mode).systemPrompt ≠ KID_PROMPT ∧
        (promptFor mode).systemPrompt ≠ TEEN_PROMPT) := by
  intro h
  exact (h "Bogus" (by decide) (by decide) (by decide)).2.2 rfl

/-- Claim C2 (amended): there is no UnknownMode failure path in the code:
every mode identifier other than "Grown-Up" and "Kid-Friendly" is dispatched
to the Teen configuration, and the submit block's label normalization sends
every label not starting with "Grown-Up" or "Kid" to "Teen". -/
theorem unknown_mode_silently_defaults_to_teen (mode : String)
    (h1 : mode ≠ "Grown-Up") (h2 : mode ≠ "Kid-Friendly")
    (h3 : pyStartswith mode "Grown-Up" = false)
    (h4 : pyStartswith mode "Kid" = false) :
    promptFor mode =
      { systemPrompt := TEEN_PROMPT, temperatureCenti := 85, maxTokens := 420 } ∧
    normalizeMode mode = "Teen" := by
  constructor
  · unfold promptFor
    rw [if_neg h1, if_neg h2]
  · unfold normalizeMode
    rw [h3, h4]
    simp

/-- Witness for the amended C2: the concrete unknown mode "Bogus" is
dispatched to the Teen configuration and normalized to "Teen". -/
theorem unknown_mode_silently_defaults_to_teen_witness :
    promptFor "Bogus" =
      { systemPrompt := TEEN_PROMPT, temperatureCenti := 85, maxTokens := 420 } ∧
    normalizeMode "Bogus" = "Teen" :=
  unknown_mode_silently_defaults_to_teen "Bogus" (by decide) (by decide) rfl rfl

end Grimey
